import Mathlib

/-!
Shallow embedding of the online-nonogram repository's core logic
(src/lib/nonogram.ts, src/lib/storageManager.ts, src/app/page.tsx)
and proofs of the frozen claims about it.

Conventions of the embedding:
* TypeScript number cells are modelled as `Nat` (cell values are 0, 1, 2).
* JavaScript 32-bit signed integer operations (`<<`, `^`) are modelled on
  `Int` with explicit reduction modulo 2^32 and two's-complement sign.
* `localStorage` is modelled as an explicit association list passed to the
  functions that read or write it; the current wall-clock reading
  (`new Date()`, `getTodayISO()`) is passed as an explicit parameter.
* Functions that `throw` are modelled with `Except String`.
* Identifiers ending in `ISO` in the source are spelled `Iso` here.
-/

namespace Nonogram

-- ==============================================
-- nonogram.ts : grids, clues, solution checking
-- ==============================================

/-- Cell of a player grid (0 = empty, 1 = filled, 2 = marked X) or of a
solution grid (0 = empty, 1 = filled); modelled as `Nat`. -/
abbrev Cell := Nat

/-- Generic 2D grid type (`Grid<T>` in the source, specialised to cells). -/
abbrev CellGrid := List (List Cell)

/-- Embedding of `createEmptyGrid(size, value = 0)`:
a `size × size` grid filled with `value`. -/
def createEmptyGrid (size : Nat) (value : Cell := 0) : CellGrid :=
  List.replicate size (List.replicate size value)

/-- Cell access `g[row][col]` with JS out-of-bounds `undefined` modelled as
the default 0 (wherever the source only tests the cell against 1, the
default 0 behaves exactly like `undefined` does in those tests). -/
def cellAt (g : CellGrid) (row col : Nat) : Cell :=
  (g.getD row []).getD col 0

/-- Embedding of the inner `computeLineClues` closure of
`computeCluesFromSolution`: a left fold carrying the mutable
`(clues, count)` state of the `for (const cell of line)` loop, followed by
the two trailing conditionals of the source. -/
def computeLineClues (line : List Cell) : List Nat :=
  let r := line.foldl
    (fun (acc : List Nat × Nat) cell =>
      if cell = 1 then (acc.1, acc.2 + 1)
      else if acc.2 > 0 then (acc.1 ++ [acc.2], 0)
      else acc)
    (([] : List Nat), 0)
  let clues := if r.2 > 0 then r.1 ++ [r.2] else r.1
  if clues.length > 0 then clues else [0]

/-- Column `col` of a grid, read top-to-bottom, as built by the column loop
of `computeCluesFromSolution` (`for (row = 0; row < size; row++)`). -/
def columnOf (solution : CellGrid) (col : Nat) : List Cell :=
  (List.range solution.length).map (fun row => cellAt solution row col)

/-- Embedding of `computeCluesFromSolution(solution)`; returns the pair
`(rowClues, colClues)`. -/
def computeCluesFromSolution (solution : CellGrid) : List (List Nat) × List (List Nat) :=
  let rowClues := solution.map computeLineClues
  let colClues := (List.range solution.length).map
    (fun col => computeLineClues (columnOf solution col))
  (rowClues, colClues)

/-- Embedding of `isSolved(player, solution)`: every `solution = 1` cell has
`player = 1`, and every other solution cell has `player ≠ 1`. The double
`for` loop over `0 ≤ row, col < solution.length` is the double `all`. -/
def isSolved (player solution : CellGrid) : Bool :=
  let size := solution.length
  (List.range size).all fun row =>
    (List.range size).all fun col =>
      let solutionCell := cellAt solution row col
      let playerCell := cellAt player row col
      if solutionCell = 1 then playerCell == 1 else playerCell != 1

/-- Embedding of `isValidPlayerGrid(grid, size)` on already-structured data:
`size` rows, each of `size` cells, every cell 0, 1 or 2. -/
def isValidPlayerGrid (grid : CellGrid) (size : Nat) : Bool :=
  grid.length == size &&
    grid.all fun row => row.length == size &&
      row.all fun cell => cell == 0 || cell == 1 || cell == 2

/-- Embedding of `isValidSolutionGrid(grid, size)` on already-structured
data: `size` rows, each of `size` cells, every cell 0 or 1. -/
def isValidSolutionGrid (grid : CellGrid) (size : Nat) : Bool :=
  grid.length == size &&
    grid.all fun row => row.length == size &&
      row.all fun cell => cell == 0 || cell == 1

-- ==============================================
-- nonogram.ts : puzzle registry
-- ==============================================

/-- Puzzle difficulty levels. -/
inductive Difficulty where
  | easy
  | medium
  | hard
deriving DecidableEq, Repr

/-- String form of a difficulty, as produced by the template literals
`${difficulty}` in the source. -/
def difficultyStr : Difficulty → String
  | .easy => "easy"
  | .medium => "medium"
  | .hard => "hard"

/-- Puzzle metadata with solution (`PuzzleEntry`). -/
structure PuzzleEntry where
  size : Nat
  id : String
  solution : CellGrid
deriving DecidableEq, Repr

/-- Placeholder entry used to give JS array indexing a total meaning; every
index the source uses is in range, so it is never selected. -/
def dummyEntry : PuzzleEntry := { size := 0, id := "", solution := [] }

/-- `SAMPLE_5X5_SOLUTION` (hourglass / X shape). -/
def SAMPLE_5X5_SOLUTION : CellGrid :=
  [[1, 0, 0, 0, 1],
   [0, 1, 0, 1, 0],
   [0, 0, 1, 0, 0],
   [0, 1, 0, 1, 0],
   [1, 0, 0, 0, 1]]

/-- `MEDIUM_10X10_SOLUTION` (smiley face). -/
def MEDIUM_10X10_SOLUTION : CellGrid :=
  [[0, 0, 1, 1, 1, 1, 1, 1, 0, 0],
   [0, 1, 0, 0, 0, 0, 0, 0, 1, 0],
   [1, 0, 0, 1, 0, 0, 1, 0, 0, 1],
   [1, 0, 0, 0, 0, 0, 0, 0, 0, 1],
   [1, 0, 1, 0, 0, 0, 0, 1, 0, 1],
   [1, 0, 0, 1, 0, 0, 1, 0, 0, 1],
   [1, 0, 0, 0, 1, 1, 0, 0, 0, 1],
   [0, 1, 0, 0, 0, 0, 0, 0, 1, 0],
   [0, 0, 1, 0, 0, 0, 0, 1, 0, 0],
   [0, 0, 0, 1, 1, 1, 1, 0, 0, 0]]

/-- `DAILY_HEART_SOLUTION` (heart shape). -/
def DAILY_HEART_SOLUTION : CellGrid :=
  [[0, 1, 1, 0, 0, 0, 0, 1, 1, 0],
   [1, 1, 1, 1, 0, 0, 1, 1, 1, 1],
   [1, 1, 1, 1, 1, 1, 1, 1, 1, 1],
   [1, 1, 1, 1, 1, 1, 1, 1, 1, 1],
   [1, 1, 1, 1, 1, 1, 1, 1, 1, 1],
   [0, 1, 1, 1, 1, 1, 1, 1, 1, 0],
   [0, 0, 1, 1, 1, 1, 1, 1, 0, 0],
   [0, 0, 0, 1, 1, 1, 1, 0, 0, 0],
   [0, 0, 0, 0, 1, 1, 0, 0, 0, 0],
   [0, 0, 0, 0, 0, 0, 0, 0, 0, 0]]

/-- `DAILY_ARROW_SOLUTION` (arrow pointing up). -/
def DAILY_ARROW_SOLUTION : CellGrid :=
  [[0, 0, 0, 0, 1, 1, 0, 0, 0, 0],
   [0, 0, 0, 1, 1, 1, 1, 0, 0, 0],
   [0, 0, 1, 1, 1, 1, 1, 1, 0, 0],
   [0, 1, 1, 0, 1, 1, 0, 1, 1, 0],
   [1, 1, 0, 0, 1, 1, 0, 0, 1, 1],
   [0, 0, 0, 0, 1, 1, 0, 0, 0, 0],
   [0, 0, 0, 0, 1, 1, 0, 0, 0, 0],
   [0, 0, 0, 0, 1, 1, 0, 0, 0, 0],
   [0, 0, 0, 0, 1, 1, 0, 0, 0, 0],
   [0, 0, 0, 0, 1, 1, 0, 0, 0, 0]]

/-- `DAILY_DIAMOND_SOLUTION` (diamond shape). -/
def DAILY_DIAMOND_SOLUTION : CellGrid :=
  [[0, 0, 0, 0, 1, 1, 0, 0, 0, 0],
   [0, 0, 0, 1, 0, 0, 1, 0, 0, 0],
   [0, 0, 1, 0, 0, 0, 0, 1, 0, 0],
   [0, 1, 0, 0, 0, 0, 0, 0, 1, 0],
   [1, 0, 0, 0, 0, 0, 0, 0, 0, 1],
   [1, 0, 0, 0, 0, 0, 0, 0, 0, 1],
   [0, 1, 0, 0, 0, 0, 0, 0, 1, 0],
   [0, 0, 1, 0, 0, 0, 0, 1, 0, 0],
   [0, 0, 0, 1, 0, 0, 1, 0, 0, 0],
   [0, 0, 0, 0, 1, 1, 0, 0, 0, 0]]

/-- `EASY_PLUS_SOLUTION` (plus sign). -/
def EASY_PLUS_SOLUTION : CellGrid :=
  [[0, 0, 1, 0, 0],
   [0, 0, 1, 0, 0],
   [1, 1, 1, 1, 1],
   [0, 0, 1, 0, 0],
   [0, 0, 1, 0, 0]]

/-- `EASY_FRAME_SOLUTION` (square frame). -/
def EASY_FRAME_SOLUTION : CellGrid :=
  [[1, 1, 1, 1, 1],
   [1, 0, 0, 0, 1],
   [1, 0, 0, 0, 1],
   [1, 0, 0, 0, 1],
   [1, 1, 1, 1, 1]]

/-- `EASY_DIAMOND_SOLUTION` (diamond). -/
def EASY_DIAMOND_SOLUTION : CellGrid :=
  [[0, 0, 1, 0, 0],
   [0, 1, 0, 1, 0],
   [1, 0, 0, 0, 1],
   [0, 1, 0, 1, 0],
   [0, 0, 1, 0, 0]]

/-- `EASY_BOX_SOLUTION` (box). -/
def EASY_BOX_SOLUTION : CellGrid :=
  [[1, 1, 1, 1, 1],
   [1, 0, 0, 0, 1],
   [1, 0, 0, 0, 1],
   [1, 0, 0, 0, 1],
   [1, 1, 1, 1, 1]]

/-- `EASY_ARROW_SOLUTION` (arrow right). -/
def EASY_ARROW_SOLUTION : CellGrid :=
  [[0, 1, 0, 0, 0],
   [0, 0, 1, 0, 0],
   [1, 1, 1, 1, 1],
   [0, 0, 1, 0, 0],
   [0, 1, 0, 0, 0]]

/-- `EASY_HEART_SOLUTION` (heart outline). -/
def EASY_HEART_SOLUTION : CellGrid :=
  [[0, 1, 0, 1, 0],
   [1, 0, 1, 0, 1],
   [1, 0, 0, 0, 1],
   [0, 1, 0, 1, 0],
   [0, 0, 1, 0, 0]]

/-- `MEDIUM_A_SOLUTION` (letter A). -/
def MEDIUM_A_SOLUTION : CellGrid :=
  [[0, 0, 0, 1, 1, 1, 1, 0, 0, 0],
   [0, 0, 1, 0, 0, 0, 0, 1, 0, 0],
   [0, 1, 0, 0, 0, 0, 0, 0, 1, 0],
   [1, 1, 1, 1, 1, 1, 1, 1, 1, 1],
   [1, 0, 0, 0, 0, 0, 0, 0, 0, 1],
   [1, 0, 0, 0, 0, 0, 0, 0, 0, 1],
   [1, 0, 0, 0, 0, 0, 0, 0, 0, 1],
   [1, 0, 0, 0, 0, 0, 0, 0, 0, 1],
   [0, 0, 0, 0, 0, 0, 0, 0, 0, 0],
   [0, 0, 0, 0, 0, 0, 0, 0, 0, 0]]

/-- `MEDIUM_CROSS_SOLUTION` (checker cross). -/
def MEDIUM_CROSS_SOLUTION : CellGrid :=
  [[0, 0, 0, 1, 0, 0, 1, 0, 0, 0],
   [0, 0, 0, 1, 0, 0, 1, 0, 0, 0],
   [1, 1, 1, 1, 1, 1, 1, 1, 1, 1],
   [0, 0, 0, 1, 0, 0, 1, 0, 0, 0],
   [0, 0, 0, 1, 0, 0, 1, 0, 0, 0],
   [0, 0, 0, 1, 0, 0, 1, 0, 0, 0],
   [1, 1, 1, 1, 1, 1, 1, 1, 1, 1],
   [0, 0, 0, 1, 0, 0, 1, 0, 0, 0],
   [0, 0, 0, 1, 0, 0, 1, 0, 0, 0],
   [0, 0, 0, 0, 0, 0, 0, 0, 0, 0]]

/-- `MEDIUM_HOUSE_SOLUTION` (house). -/
def MEDIUM_HOUSE_SOLUTION : CellGrid :=
  [[0, 0, 0, 0, 1, 1, 0, 0, 0, 0],
   [0, 0, 0, 1, 0, 0, 1, 0, 0, 0],
   [0, 0, 1, 0, 0, 0, 0, 1, 0, 0],
   [0, 1, 1, 1, 1, 1, 1, 1, 1, 0],
   [1, 0, 0, 0, 0, 0, 0, 0, 0, 1],
   [1, 0, 0, 0, 0, 0, 0, 0, 0, 1],
   [1, 0, 0, 1, 1, 1, 1, 0, 0, 1],
   [1, 0, 0, 1, 0, 0, 1, 0, 0, 1],
   [1, 0, 0, 1, 0, 0, 1, 0, 0, 1],
   [1, 1, 1, 1, 1, 1, 1, 1, 1, 1]]

/-- `MEDIUM_SPIRAL_SOLUTION` (spiral). -/
def MEDIUM_SPIRAL_SOLUTION : CellGrid :=
  [[1, 1, 1, 1, 1, 1, 1, 1, 1, 1],
   [1, 0, 0, 0, 0, 0, 0, 0, 0, 1],
   [1, 0, 1, 1, 1, 1, 1, 1, 0, 1],
   [1, 0, 1, 0, 0, 0, 0, 1, 0, 1],
   [1, 0, 1, 0, 1, 1, 0, 1, 0, 1],
   [1, 0, 1, 0, 1, 1, 0, 1, 0, 1],
   [1, 0, 1, 0, 0, 0, 0, 1, 0, 1],
   [1, 0, 1, 1, 1, 1, 1, 1, 0, 1],
   [1, 0, 0, 0, 0, 0, 0, 0, 0, 1],
   [1, 1, 1, 1, 1, 1, 1, 1, 1, 1]]

/-- Registry of all available puzzles by difficulty (`PUZZLES`). -/
def PUZZLES : Difficulty → List PuzzleEntry
  | .easy =>
    [{ size := 5, id := "easy-001", solution := SAMPLE_5X5_SOLUTION },
     { size := 5, id := "easy-002", solution := EASY_PLUS_SOLUTION },
     { size := 5, id := "easy-003", solution := EASY_FRAME_SOLUTION },
     { size := 5, id := "easy-004", solution := EASY_DIAMOND_SOLUTION },
     { size := 5, id := "easy-005", solution := EASY_BOX_SOLUTION },
     { size := 5, id := "easy-006", solution := EASY_ARROW_SOLUTION },
     { size := 5, id := "easy-007", solution := EASY_HEART_SOLUTION }]
  | .medium =>
    [{ size := 10, id := "medium-001", solution := MEDIUM_10X10_SOLUTION },
     { size := 10, id := "medium-002", solution := MEDIUM_A_SOLUTION },
     { size := 10, id := "medium-003", solution := MEDIUM_CROSS_SOLUTION },
     { size := 10, id := "medium-004", solution := MEDIUM_HOUSE_SOLUTION },
     { size := 10, id := "medium-005", solution := MEDIUM_SPIRAL_SOLUTION },
     { size := 10, id := "medium-006", solution := DAILY_HEART_SOLUTION },
     { size := 10, id := "medium-007", solution := DAILY_ARROW_SOLUTION },
     { size := 10, id := "medium-008", solution := DAILY_DIAMOND_SOLUTION }]
  | .hard => []

-- ==============================================
-- nonogram.ts : daily featured puzzle helpers
-- ==============================================

/-- Splitting on a single-character separator, as in JS
`s.split(sep)` (the separators the source splits on, `"-"` and `"_"`, are
single characters). Structurally recursive so that proofs can evaluate it. -/
def jsSplitAux (sep : Char) : List Char → List Char → List String
  | [], acc => [String.mk acc.reverse]
  | c :: rest, acc =>
    if c = sep then String.mk acc.reverse :: jsSplitAux sep rest []
    else jsSplitAux sep rest (c :: acc)

/-- JS `s.split(sep)` for a one-character separator. -/
def jsSplit (sep : Char) (s : String) : List String :=
  jsSplitAux sep s.data []

/-- JS `s.startsWith(pre)`. -/
def jsStartsWith (s pre : String) : Bool :=
  pre.data.isPrefixOf s.data

/-- Value of a decimal digit character. -/
def digitVal (c : Char) : Option Nat :=
  if 48 ≤ c.toNat && c.toNat ≤ 57 then some (c.toNat - 48) else none

/-- JS `Number(s)` restricted to the nonempty all-digit strings the date
code feeds it; anything else maps to `none` (JS `NaN`). -/
def parseNat (s : String) : Option Nat :=
  match s.data with
  | [] => none
  | l => l.foldl
      (fun acc c =>
        match acc, digitVal c with
        | some n, some d => some (n * 10 + d)
        | _, _ => none)
      (some 0)

/-- Two-digit zero padding, as in `String(n).padStart(2, "0")` for the
month/day components (which are always < 100). -/
def pad2 (n : Nat) : String :=
  if n < 10 then "0" ++ toString n else toString n

/-- Formatting step of `getLocalDateISO`: `"${year}-${month}-${day}"` with
zero-padded month and day (the year is rendered unpadded, as `${year}`). -/
def formatDateIso (y m d : Nat) : String :=
  toString y ++ "-" ++ pad2 m ++ "-" ++ pad2 d

/-- Days in a month of the Gregorian calendar, as implemented by the JS
`Date` rollover used in `getPreviousDateISO`. -/
def daysInMonth (y m : Nat) : Nat :=
  if m = 2 then
    if y % 4 = 0 && (y % 100 != 0 || y % 400 = 0) then 29 else 28
  else if m = 4 || m = 6 || m = 9 || m = 11 then 30
  else 31

/-- Previous calendar day of a valid date triple, which is what
`new Date(y, m - 1, d)` followed by `date.setDate(date.getDate() - 1)`
computes for in-range inputs. -/
def prevDay (y m d : Nat) : Nat × Nat × Nat :=
  if d > 1 then (y, m, d - 1)
  else if m > 1 then (y, m - 1, daysInMonth y (m - 1))
  else (y - 1, 12, 31)

/-- Embedding of `getPreviousDateISO(dateISO)` for canonical
`"YYYY-MM-DD"` inputs: parse the three dash-separated components, step one
day back, re-format. Non-numeric input (on which the JS original yields an
Invalid Date and formats `"NaN-NaN-NaN"`) is mapped to that same string;
no claim depends on that branch. -/
def getPreviousDateIso ( dateIso : String) : String :=
  match (jsSplit ('-') dateIso).map parseNat with
  | [some y, some m, some d] =>
    let p := prevDay y m d
    formatDateIso p.1 p.2.1 p.2.2
  | _ => "NaN-NaN-NaN"

/-- Two's-complement bit pattern of a JS 32-bit signed integer value. -/
def toBits (x : Int) : Nat := (x % (4294967296 : Int)).toNat

/-- Signed value of a 32-bit two's-complement bit pattern (JS `ToInt32`). -/
def ofBits (b : Nat) : Int :=
  if b < 2147483648 then (b : Int) else (b : Int) - 4294967296

/-- One step of the loop body of `hashString`:
`hash = ((hash << 5) + hash) ^ str.charCodeAt(i)`. `<<` truncates to a
signed 32-bit integer, `+` is exact at these magnitudes, and `^` converts
both operands to signed 32-bit integers before the bitwise xor. -/
def hashStep (hash : Int) (c : Char) : Int :=
  let shifted := ofBits (toBits hash * 32 % 4294967296)
  ofBits (Nat.xor (toBits (shifted + hash)) c.toNat)

/-- Embedding of `hashString(str)`: djb2-xor fold from 5381 over the UTF-16
code units (all strings hashed by the app are ASCII, where `Char.toNat`
coincides with `charCodeAt`), then `Math.abs`. -/
def hashString (str : String) : Nat :=
  (str.data.foldl hashStep 5381).natAbs

/-- Embedding of `getFeaturedPuzzle(difficulty, dateISO)`. Empty pools
throw (`Except.error`); singleton pools return their entry; otherwise the
day's hash picks an index, bumped by one (mod pool size) when it collides
with yesterday's index. -/
def getFeaturedPuzzle (difficulty : Difficulty) ( dateIso : String) :
    Except String PuzzleEntry :=
  let pool := PUZZLES difficulty
  if pool.length = 0 then
    .error ("No puzzles available for difficulty: " ++ difficultyStr difficulty)
  else if pool.length = 1 then .ok (pool.getD 0 dummyEntry)
  else
    let seedToday := difficultyStr difficulty ++ ":" ++ dateIso
    let indexToday := hashString seedToday % pool.length
    let seedYesterday :=
      difficultyStr difficulty ++ ":" ++ getPreviousDateIso dateIso
    let indexYesterday := hashString seedYesterday % pool.length
    let indexToday' :=
      if indexToday = indexYesterday then (indexToday + 1) % pool.length
      else indexToday
    .ok (pool.getD indexToday' dummyEntry)

/-- Embedding of `getPuzzleIndex(difficulty, puzzleId)`: index of the first
pool entry with the given id, `-1` if none. -/
def getPuzzleIndex (difficulty : Difficulty) (puzzleId : String) : Int :=
  match (PUZZLES difficulty).findIdx? (fun p => p.id == puzzleId) with
  | some i => (i : Int)
  | none => -1

/-- The scan loop of `getNextPuzzleNoRepeat`: first pool entry whose id is
not in `seenIds`, visiting indices `(startIndex + 1) … (startIndex + len)`
modulo the pool length, in that order. -/
def firstUnseenFrom (pool : List PuzzleEntry) (seenIds : List String)
    (startIndex : Nat) : Option PuzzleEntry :=
  (List.range pool.length).findSome? fun offset =>
    let idx := (startIndex + offset + 1) % pool.length
    let candidate := pool.getD idx dummyEntry
    if seenIds.contains candidate.id then none else some candidate

/-- Embedding of
`getNextPuzzleNoRepeat(difficulty, dateISO, alreadySeenIds, startFrom?)`.
`Set(alreadySeenIds)` membership is list membership. -/
def getNextPuzzleNoRepeat (difficulty : Difficulty) ( dateIso : String)
    (alreadySeenIds : List String) (startFrom : Option PuzzleEntry) :
    Except String PuzzleEntry :=
  let pool := PUZZLES difficulty
  if pool.length = 0 then
    .error ("No puzzles available for difficulty: " ++ difficultyStr difficulty)
  else
    match startFrom with
    | some sf =>
      if alreadySeenIds.contains sf.id then
        let startIndex :=
          let featuredIndex := getPuzzleIndex difficulty sf.id
          if featuredIndex ≥ 0 then featuredIndex.toNat else 0
        match firstUnseenFrom pool alreadySeenIds startIndex with
        | some c => .ok c
        | none => .ok sf
      else .ok sf
    | none =>
      match getFeaturedPuzzle difficulty dateIso with
      | .error e => .error e
      | .ok featured =>
        let startIndex :=
          let featuredIndex := getPuzzleIndex difficulty featured.id
          if featuredIndex ≥ 0 then featuredIndex.toNat else 0
        match firstUnseenFrom pool alreadySeenIds startIndex with
        | some c => .ok c
        | none => .ok (pool.getD 0 dummyEntry)

/-- Embedding of `makeDailySeenKey(difficulty, dateISO)`. -/
def makeDailySeenKey (difficulty : Difficulty) ( dateIso : String) : String :=
  "nonogram:seen:" ++ difficultyStr difficulty ++ ":" ++ dateIso ++ ":v1"

-- ==============================================
-- storageManager.ts
-- ==============================================

/-- Completion status of a stored attempt. -/
inductive SessionStatus where
  | in_progress
  | solved
deriving DecidableEq, Repr

/-- `GameSessionData` as persisted by the storage manager. JSON
(de)serialisation is elided: the modelled store holds structured values. -/
structure GameSessionData where
  grid : CellGrid
  undoStack : List CellGrid
  redoStack : List CellGrid
  timerSeconds : Nat
  status : SessionStatus
  lastSavedDate : String
deriving DecidableEq, Repr

/-- The `localStorage` contents relevant to the storage manager: an
association list from key to stored record, in key-enumeration order. -/
abbrev SessionStore := List (String × GameSessionData)

/-- `localStorage.getItem`: the value at the first matching key. -/
def storeGet (key : String) (store : SessionStore) : Option GameSessionData :=
  match store.find? (fun e => e.1 == key) with
  | some e => some e.2
  | none => none

/-- Embedding of `getStorageKey(difficulty, dateISO)`:
`"puzzle_${difficulty}_${dateISO}"`. -/
def getStorageKey (difficulty : Difficulty) ( dateIso : String) : String :=
  "puzzle_" ++ difficultyStr difficulty ++ "_" ++ dateIso

/-- Embedding of `isDataFromToday(data)`; the `getTodayISO()` clock reading
is the explicit `today` parameter. -/
def isDataFromToday (data : GameSessionData) (today : String) : Bool :=
  data.lastSavedDate == today

/-- Embedding of `loadGameSession(difficulty, dateISO)`: the record stored
under the (difficulty, dateISO) key, but only when its `lastSavedDate`
matches the current day `today`; stale records read as `none` and are left
in the store. -/
def loadGameSession (store : SessionStore) (today : String)
    (difficulty : Difficulty) ( dateIso : String) : Option GameSessionData :=
  match storeGet (getStorageKey difficulty dateIso) store with
  | none => none
  | some data => if isDataFromToday data today then some data else none

/-- One element of the `getAllStoredSessions()` result. The difficulty is
kept as a raw string because the source casts `parts[1] as Difficulty`
without validating it. -/
structure StoredSessionInfo where
  key : String
  difficulty : String
  dateIso : String
  data : GameSessionData
deriving DecidableEq, Repr

/-- Embedding of `getAllStoredSessions()`: every stored entry whose key
starts with `"puzzle_"` and splits into exactly three `_`-separated parts,
together with the parsed difficulty and date parts. -/
def getAllStoredSessions (store : SessionStore) : List StoredSessionInfo :=
  store.filterMap fun e =>
    if jsStartsWith e.1 "puzzle_" then
      match jsSplit ('_') e.1 with
      | [_, diffStr, dateStr] => some ⟨e.1, diffStr, dateStr, e.2⟩
      | _ => none
    else none

/-- Milliseconds per day (`1000 * 60 * 60 * 24`). -/
def dayMs : Nat := 86400000

/-- Days between 1970-01-01 and the given civil date (valid triples with
`y ≥ 1`), i.e. `new Date("YYYY-MM-DDT00:00:00Z").getTime() / dayMs`. -/
def daysFromCivil (y m d : Nat) : Int :=
  let y' := if m ≤ 2 then y - 1 else y
  let era := y' / 400
  let yoe := y' - era * 400
  let mp := (m + 9) % 12
  let doy := (153 * mp + 2) / 5 + d - 1
  let doe := yoe * 365 + yoe / 4 - yoe / 100 + doy
  (era : Int) * 146097 + (doe : Int) - 719468

/-- Epoch milliseconds of `new Date(dateStr + "T00:00:00Z")` for canonical
`"YYYY-MM-DD"` strings; `none` models the Invalid Date (`NaN`) outcome, for
which every subsequent `NaN > threshold` comparison is false. -/
def parseDateMsUtc (dateStr : String) : Option Int :=
  match (jsSplit ('-') dateStr).map parseNat with
  | [some y, some m, some d] => some (daysFromCivil y m d * (dayMs : Int))
  | _ => none

/-- Date embedded in a cleanup candidate key, following the key filter of
`cleanupOldGameData`: `"puzzle_"` prefix and exactly three `_`-parts. -/
def keyEmbeddedDateMs (key : String) : Option Int :=
  if jsStartsWith key "puzzle_" then
    match jsSplit ('_') key with
    | [_, _, dateStr] => parseDateMsUtc dateStr
    | _ => none
  else none

/-- The `Math.ceil(Math.abs(today - fileDate) / dayMs)` computation of
`cleanupOldGameData`, on exact integers. -/
def diffDaysOf (now fileMs : Int) : Nat :=
  ((now - fileMs).natAbs + dayMs - 1) / dayMs

/-- Deletion test of `cleanupOldGameData` for one key: the key parses and
its date lies more than `olderThanDays` (ceiling-rounded) days from `now`
in either direction. -/
def shouldDeleteKey (now : Int) (olderThanDays : Nat) (key : String) : Bool :=
  match keyEmbeddedDateMs key with
  | some fileMs => olderThanDays < diffDaysOf now fileMs
  | none => false

/-- Embedding of `cleanupOldGameData(olderThanDays = 30)`: the store after
removing every marked key; `now` is the `new Date()` clock reading. -/
def cleanupOldGameData (now : Int) (olderThanDays : Nat)
    (store : SessionStore) : SessionStore :=
  store.filter fun e => !shouldDeleteKey now olderThanDays e.1

/-- The key's embedded UTC-midnight instant `fileMs` denotes the calendar
day that contains `now` on a host whose timezone offset is `tz`
milliseconds (so the local wall-clock reading is `now + tz`). This is what
"the entry whose key's embedded date is the current day" means for a
canonically dated key. -/
abbrev isCurrentDayEntry (tz now fileMs : Int) : Prop :=
  fileMs ≤ now + tz ∧ now + tz < fileMs + (dayMs : Int)

-- ==============================================
-- page.tsx : solved markers and statistics
-- ==============================================

/-- Embedding of `getSolvedMarkerKey(difficulty, puzzleId)`. -/
def getSolvedMarkerKey (difficulty : Difficulty) (puzzleId : String) : String :=
  "nonogram:solved:" ++ difficultyStr difficulty ++ ":" ++ puzzleId ++ ":v1"

/-- The `localStorage` keys currently holding the string `"true"` as solved
markers. -/
abbrev MarkerStore := List String

/-- Embedding of `isPuzzleMarkedSolved(difficulty, puzzleId)`. -/
def isPuzzleMarkedSolved (markers : MarkerStore) (difficulty : Difficulty)
    (puzzleId : String) : Bool :=
  markers.contains (getSolvedMarkerKey difficulty puzzleId)

/-- Embedding of `markPuzzleSolved(difficulty, puzzleId)`:
`localStorage.setItem(key, "true")`. -/
def markPuzzleSolved (markers : MarkerStore) (difficulty : Difficulty)
    (puzzleId : String) : MarkerStore :=
  getSolvedMarkerKey difficulty puzzleId :: markers

/-- Per-difficulty counters (`Record<Difficulty, number>`). -/
structure DiffCounts where
  easy : Nat
  medium : Nat
  hard : Nat
deriving DecidableEq, Repr

/-- Read a per-difficulty counter. -/
def DiffCounts.get (c : DiffCounts) : Difficulty → Nat
  | .easy => c.easy
  | .medium => c.medium
  | .hard => c.hard

/-- Increment one per-difficulty counter (the spread-plus-override in the
solved-statistics effect). -/
def DiffCounts.bump (c : DiffCounts) : Difficulty → DiffCounts
  | .easy => { c with easy := c.easy + 1 }
  | .medium => { c with medium := c.medium + 1 }
  | .hard => { c with hard := c.hard + 1 }

/-- The `Stats` shape of `page.tsx`, restricted to the fields the
solved-statistics effect reads or writes (the optional
`seenTodayByDifficulty` field is maintained by effects outside the
modelled events and never feeds back into them). -/
structure Stats where
  totalSolved : Nat
  totalSolvedByDifficulty : DiffCounts
  solvedToday : Nat
  lastSolvedDateIso : Option String
deriving DecidableEq, Repr

/-- Embedding of `createDefaultStats()`. -/
def createDefaultStats : Stats :=
  { totalSolved := 0
    totalSolvedByDifficulty := { easy := 0, medium := 0, hard := 0 }
    solvedToday := 0
    lastSolvedDateIso := none }

-- ==============================================
-- page.tsx : the in-session state machine
-- ==============================================

/-- Value of the `checkMessage` state when non-null. -/
inductive CheckMessage where
  | solved
  | notSolved
deriving DecidableEq, Repr

/-- The validated result of `loadProgress(storageKey, size)` when non-null
(grid validation is performed by `loadProgress` itself and only shapes
which records are loadable, not what loading does). -/
structure SavedProgress where
  playerGrid : CellGrid
  undoStack : List CellGrid
  redoStack : List CellGrid
deriving DecidableEq, Repr

/-- The fixed surroundings of one loaded puzzle session: the active puzzle
and today's date. Difficulty or puzzle switches replace the context and are
outside the modelled event set. -/
structure PageCtx where
  difficulty : Difficulty
  puzzleId : String
  size : Nat
  solution : CellGrid
  todayIso : String

/-- The React state of `Home` relevant to the victory/statistics claims,
plus the localStorage solved markers. -/
structure PageState where
  playerGrid : CellGrid
  undoStack : List CellGrid
  redoStack : List CellGrid
  checkMessage : Option CheckMessage
  hasLoaded : Bool
  markers : MarkerStore
  stats : Stats
deriving DecidableEq, Repr

/-- The events that drive the modelled part of `page.tsx`: the
storage-load effect completing (with the result of `loadProgress`), a grid
edit from the board, and the Undo/Redo/Reset/Check buttons. -/
inductive PageEvent where
  | load (saved : Option SavedProgress)
  | gridChange (next : CellGrid)
  | undoClick
  | redoClick
  | resetClick
  | checkClick
deriving DecidableEq, Repr

/-- The state update each event performs, before effects run:
the load effect body (lines 439-452), `handleGridChange`, `handleUndo`,
`handleRedo`, `handleReset` and `handleCheck` of `page.tsx`. -/
def applyEvent (ctx : PageCtx) (e : PageEvent) (s : PageState) : PageState :=
  match e with
  | .load saved =>
    match saved with
    | some sv =>
      { s with playerGrid := sv.playerGrid, undoStack := sv.undoStack,
               redoStack := sv.redoStack, checkMessage := none,
               hasLoaded := true }
    | none =>
      { s with playerGrid := createEmptyGrid ctx.size, undoStack := [],
               redoStack := [], checkMessage := none, hasLoaded := true }
  | .gridChange next =>
    { s with undoStack := s.undoStack ++ [s.playerGrid], redoStack := [],
             playerGrid := next, checkMessage := none }
  | .undoClick =>
    match s.undoStack.getLast? with
    | none => s
    | some previousGrid =>
      { s with undoStack := s.undoStack.dropLast,
               redoStack := s.redoStack ++ [s.playerGrid],
               playerGrid := previousGrid, checkMessage := none }
  | .redoClick =>
    match s.redoStack.getLast? with
    | none => s
    | some nextGrid =>
      { s with redoStack := s.redoStack.dropLast,
               undoStack := s.undoStack ++ [s.playerGrid],
               playerGrid := nextGrid, checkMessage := none }
  | .resetClick =>
    { s with playerGrid := createEmptyGrid ctx.size, undoStack := [],
             redoStack := [], checkMessage := none }
  | .checkClick =>
    let msg : CheckMessage :=
      if isSolved s.playerGrid ctx.solution then .solved else .notSolved
    { s with checkMessage := some msg }

/-- The new statistics object built by the solved-statistics effect
(lines 420-435 of `page.tsx`). -/
def bumpStats (ctx : PageCtx) (st : Stats) : Stats :=
  let isNewDay := st.lastSolvedDateIso ≠ some ctx.todayIso
  let baseSolvedToday := if isNewDay then 0 else st.solvedToday
  { totalSolved := st.totalSolved + 1
    totalSolvedByDifficulty := st.totalSolvedByDifficulty.bump ctx.difficulty
    solvedToday := baseSolvedToday + 1
    lastSolvedDateIso := some ctx.todayIso }

/-- The solved-statistics effect (`useEffect` on `checkMessage`,
lines 413-437): when the check message is `"solved"` and the puzzle is not
yet marked solved, mark it and increment the statistics; otherwise do
nothing. -/
def runSolvedStatsEffect (ctx : PageCtx) (s : PageState) : PageState :=
  if s.checkMessage == some CheckMessage.solved
      && !isPuzzleMarkedSolved s.markers ctx.difficulty ctx.puzzleId then
    { s with markers := markPuzzleSolved s.markers ctx.difficulty ctx.puzzleId,
             stats := bumpStats ctx s.stats }
  else s

/-- One full transition: the event's state update followed by the
solved-statistics effect. -/
def step (ctx : PageCtx) (e : PageEvent) (s : PageState) : PageState :=
  runSolvedStatsEffect ctx (applyEvent ctx e s)

/-- A sequence of transitions. -/
def run (ctx : PageCtx) (events : List PageEvent) (s : PageState) : PageState :=
  events.foldl (fun st e => step ctx e st) s

/-- Whether the victory notification (the `"🎉 Congratulations!"` status
line, rendered exactly when `checkMessage === "solved"`) is visible. -/
def notificationVisible (s : PageState) : Bool :=
  s.checkMessage == some CheckMessage.solved

/-- Whether event `e`, fired in state `s`, is a Check click that finds the
grid solved (a genuine solve observation). -/
def solvesNow (ctx : PageCtx) (s : PageState) (e : PageEvent) : Bool :=
  e == PageEvent.checkClick && isSolved s.playerGrid ctx.solution

/-- Whether some event of the trace is a Check click made while the grid
is solved. -/
def traceSolves (ctx : PageCtx) : PageState → List PageEvent → Bool
  | _, [] => false
  | s, e :: t => solvesNow ctx s e || traceSolves ctx (step ctx e s) t

-- ==============================================
-- page.tsx : seen-id rotation and handleNewPuzzle
-- ==============================================

/-- First-occurrence de-duplication, as performed by
`Array.from(new Set(ids))` (JS `Set` preserves insertion order). -/
def dedup (ids : List String) : List String :=
  ids.foldl (fun acc x => if acc.contains x then acc else acc ++ [x]) []

/-- Embedding of `handleNewPuzzle` (lines 516-554 of `page.tsx`) as a pure
function of the persisted seen-id list and the current puzzle id. Returns
`none` when the pool is empty (the handler's early return) and otherwise
the pair (new persisted seen-id list, new active puzzle id). The
unreachable error branches of the selection helpers (the pool is known
non-empty) also map to `none`. -/
def handleNewPuzzle (difficulty : Difficulty) ( todayIso : String)
    (storedSeen : List String) (puzzleId : String) :
    Option (List String × String) :=
  let pool := PUZZLES difficulty
  if pool.length = 0 then none
  else
    let seen := dedup (storedSeen ++ [puzzleId])
    match getFeaturedPuzzle difficulty todayIso with
    | .error _ => none
    | .ok featured =>
      match getNextPuzzleNoRepeat difficulty todayIso seen (some featured) with
      | .error _ => none
      | .ok next =>
        if seen.contains next.id then
          match getNextPuzzleNoRepeat difficulty todayIso [] (some featured) with
          | .error _ => none
          | .ok next2 => some ([next2.id], next2.id)
        else some (seen, next.id)

-- ==============================================
-- Lemmas about the page state machine
-- ==============================================

theorem runSolvedStatsEffect_checkMessage (ctx : PageCtx) (s : PageState) :
    (runSolvedStatsEffect ctx s).checkMessage = s.checkMessage := by
  unfold runSolvedStatsEffect
  split <;> rfl

theorem applyEvent_markers (ctx : PageCtx) (e : PageEvent) (s : PageState) :
    (applyEvent ctx e s).markers = s.markers := by
  cases e <;> unfold applyEvent <;> try rfl
  case load saved => cases saved <;> rfl
  case undoClick => cases s.undoStack.getLast? <;> rfl
  case redoClick => cases s.redoStack.getLast? <;> rfl

theorem applyEvent_stats (ctx : PageCtx) (e : PageEvent) (s : PageState) :
    (applyEvent ctx e s).stats = s.stats := by
  cases e <;> unfold applyEvent <;> try rfl
  case load saved => cases saved <;> rfl
  case undoClick => cases s.undoStack.getLast? <;> rfl
  case redoClick => cases s.redoStack.getLast? <;> rfl

/-- `checkMessage` after an event: a Check click reports the evaluator's
verdict, a load/edit/reset clears the message, and an empty-stack
Undo/Redo click leaves the state untouched. -/
theorem applyEvent_checkMessage (ctx : PageCtx) (e : PageEvent) (s : PageState) :
    (applyEvent ctx e s).checkMessage = none
    ∨ (e = PageEvent.checkClick
        ∧ (applyEvent ctx e s).checkMessage =
            some (if isSolved s.playerGrid ctx.solution then .solved
                  else .notSolved))
    ∨ (applyEvent ctx e s = s) := by
  cases e <;> unfold applyEvent
  case load saved => cases saved <;> exact Or.inl rfl
  case gridChange next => exact Or.inl rfl
  case undoClick =>
    cases s.undoStack.getLast? <;> simp
  case redoClick =>
    cases s.redoStack.getLast? <;> simp
  case resetClick => exact Or.inl rfl
  case checkClick => exact Or.inr (Or.inl ⟨rfl, rfl⟩)

/-- A state is consistent when a visible solved message implies the
solved marker is already set; every state the machine produces is. -/
def consistent (ctx : PageCtx) (s : PageState) : Prop :=
  s.checkMessage = some CheckMessage.solved →
    isPuzzleMarkedSolved s.markers ctx.difficulty ctx.puzzleId = true

/-- The condition under which the solved-statistics effect fires after an
event, in terms of the pre-event state. -/
def fires (ctx : PageCtx) (e : PageEvent) (s : PageState) : Bool :=
  ((applyEvent ctx e s).checkMessage == some CheckMessage.solved)
    && !isPuzzleMarkedSolved s.markers ctx.difficulty ctx.puzzleId

theorem step_checkMessage (ctx : PageCtx) (e : PageEvent) (s : PageState) :
    (step ctx e s).checkMessage = (applyEvent ctx e s).checkMessage :=
  runSolvedStatsEffect_checkMessage ctx (applyEvent ctx e s)

theorem step_markers (ctx : PageCtx) (e : PageEvent) (s : PageState) :
    (step ctx e s).markers =
      (if fires ctx e s
       then markPuzzleSolved s.markers ctx.difficulty ctx.puzzleId
       else s.markers) := by
  simp only [step, runSolvedStatsEffect, fires, applyEvent_markers]
  split <;> simp [applyEvent_markers]

theorem step_stats (ctx : PageCtx) (e : PageEvent) (s : PageState) :
    (step ctx e s).stats =
      (if fires ctx e s then bumpStats ctx s.stats else s.stats) := by
  simp only [step, runSolvedStatsEffect, fires, applyEvent_markers]
  split <;> simp [applyEvent_stats]

/-- Under consistency, the effect fires exactly on a solving Check made
while the puzzle was not yet marked solved. -/
theorem fires_eq (ctx : PageCtx) (e : PageEvent) (s : PageState)
    (hs : consistent ctx s) :
    fires ctx e s =
      (solvesNow ctx s e
        && !isPuzzleMarkedSolved s.markers ctx.difficulty ctx.puzzleId) := by
  cases e
  case load saved => cases saved <;> simp [fires, applyEvent, solvesNow]
  case gridChange next => simp [fires, applyEvent, solvesNow]
  case undoClick =>
    cases hlast : s.undoStack.getLast? <;>
      simp only [fires, applyEvent, hlast]
    · by_cases hmsg : s.checkMessage = some CheckMessage.solved
      · simp [hmsg, hs hmsg, solvesNow]
      · rw [beq_eq_false_iff_ne.mpr hmsg]
        simp [solvesNow]
    · simp [solvesNow]
  case redoClick =>
    cases hlast : s.redoStack.getLast? <;>
      simp only [fires, applyEvent, hlast]
    · by_cases hmsg : s.checkMessage = some CheckMessage.solved
      · simp [hmsg, hs hmsg, solvesNow]
      · rw [beq_eq_false_iff_ne.mpr hmsg]
        simp [solvesNow]
    · simp [solvesNow]
  case resetClick => simp [fires, applyEvent, solvesNow]
  case checkClick =>
    by_cases hsolved : isSolved s.playerGrid ctx.solution
    · simp [fires, applyEvent, solvesNow, hsolved]
    · simp only [Bool.not_eq_true] at hsolved
      simp [fires, applyEvent, solvesNow, hsolved]

theorem step_consistent (ctx : PageCtx) (e : PageEvent) (s : PageState) :
    consistent ctx (step ctx e s) := by
  intro hmsg
  rw [step_checkMessage] at hmsg
  have hmsg' : ((applyEvent ctx e s).checkMessage
      == some CheckMessage.solved) = true := by simp [hmsg]
  rw [step_markers]
  unfold fires
  rw [hmsg']
  by_cases hm : isPuzzleMarkedSolved s.markers ctx.difficulty ctx.puzzleId
  · simp [hm]
  · simp only [Bool.not_eq_true] at hm
    have hm' : getSolvedMarkerKey ctx.difficulty ctx.puzzleId ∉ s.markers := by
      simpa [isPuzzleMarkedSolved] using hm
    simp [isPuzzleMarkedSolved, markPuzzleSolved, hm']

theorem step_marked (ctx : PageCtx) (e : PageEvent) (s : PageState)
    (hs : consistent ctx s) :
    isPuzzleMarkedSolved (step ctx e s).markers ctx.difficulty ctx.puzzleId =
      (isPuzzleMarkedSolved s.markers ctx.difficulty ctx.puzzleId
        || solvesNow ctx s e) := by
  rw [step_markers, fires_eq ctx e s hs]
  cases hn : solvesNow ctx s e <;>
    cases hm : isPuzzleMarkedSolved s.markers ctx.difficulty ctx.puzzleId <;>
      simp [hn, hm, isPuzzleMarkedSolved, markPuzzleSolved] <;>
        simp [isPuzzleMarkedSolved] at hm <;> simp [hm]

theorem step_totalSolved (ctx : PageCtx) (e : PageEvent) (s : PageState)
    (hs : consistent ctx s) :
    (step ctx e s).stats.totalSolved =
      s.stats.totalSolved +
        (if solvesNow ctx s e
            && !isPuzzleMarkedSolved s.markers ctx.difficulty ctx.puzzleId
         then 1 else 0) := by
  rw [step_stats, fires_eq ctx e s hs]
  split <;> simp [bumpStats]

/-- Core counting invariant: from a consistent state, a trace increments
the solved counter exactly once if it contains a solving Check from an
unmarked start, and never otherwise. -/
theorem run_totalSolved (ctx : PageCtx) (t : List PageEvent) (s : PageState)
    (hs : consistent ctx s) :
    (run ctx t s).stats.totalSolved =
      s.stats.totalSolved +
        (if !isPuzzleMarkedSolved s.markers ctx.difficulty ctx.puzzleId
            && traceSolves ctx s t
         then 1 else 0) := by
  induction t generalizing s with
  | nil => simp [run, traceSolves]
  | cons e t ih =>
    have hrun : run ctx (e :: t) s = run ctx t (step ctx e s) := by
      simp [run]
    rw [hrun, ih (step ctx e s) (step_consistent ctx e s),
      step_totalSolved ctx e s hs, step_marked ctx e s hs]
    have htrace : traceSolves ctx s (e :: t) =
        (solvesNow ctx s e || traceSolves ctx (step ctx e s) t) := rfl
    rw [htrace]
    cases hm : isPuzzleMarkedSolved s.markers ctx.difficulty ctx.puzzleId <;>
      cases hn : solvesNow ctx s e <;>
        cases ht : traceSolves ctx (step ctx e s) t <;> simp

-- ==============================================
-- Witness fixtures
-- ==============================================

/-- Session context for the easy-001 (hourglass) puzzle on 2026-01-19. -/
def ctxEasy1 : PageCtx :=
  { difficulty := .easy, puzzleId := "easy-001", size := 5,
    solution := SAMPLE_5X5_SOLUTION, todayIso := "2026-01-19" }

/-- A fresh, never-loaded session state. -/
def freshState : PageState :=
  { playerGrid := createEmptyGrid 5, undoStack := [], redoStack := [],
    checkMessage := none, hasLoaded := false, markers := [],
    stats := createDefaultStats }

/-- A loaded state whose grid already fully matches the solution (as after
loading a previously solved attempt). -/
def solvedGridState : PageState :=
  { freshState with playerGrid := SAMPLE_5X5_SOLUTION, hasLoaded := true }

/-- A session trace that solves the puzzle once: load, fill in the full
solution, Check. -/
def solveTrace : List PageEvent :=
  [PageEvent.load none, PageEvent.gridChange SAMPLE_5X5_SOLUTION,
   PageEvent.checkClick]

/-- The solve trace followed by a restart and a second full solve. -/
def restartResolveTrace : List PageEvent :=
  solveTrace ++
    [PageEvent.resetClick, PageEvent.gridChange SAMPLE_5X5_SOLUTION,
     PageEvent.checkClick]

-- ==============================================
-- C1
-- ==============================================

/-- C1: completing the load transition always leaves the victory
notification invisible, for every persisted record (including one whose
grid fully matches the solution) and from every prior state — hence also
after arbitrarily many repeated loads; and the only event that can turn
the notification on afterwards is a Check click made while the grid is
solved. -/
theorem load_leaves_notification_invisible (ctx : PageCtx) (s : PageState) :
    (∀ saved, notificationVisible (step ctx (PageEvent.load saved) s) = false)
    ∧ (∀ e, notificationVisible (step ctx e s) = true →
        notificationVisible s = true
          ∨ (e = PageEvent.checkClick
              ∧ isSolved s.playerGrid ctx.solution = true)) := by
  constructor
  · intro saved
    cases saved <;>
      simp [notificationVisible, step_checkMessage, applyEvent]
  · intro e h
    unfold notificationVisible at h
    rw [step_checkMessage] at h
    cases e
    case load saved => cases saved <;> simp [applyEvent] at h
    case gridChange next => simp [applyEvent] at h
    case undoClick =>
      cases hlast : s.undoStack.getLast? <;>
        simp only [applyEvent, hlast] at h
      · exact Or.inl h
      · simp at h
    case redoClick =>
      cases hlast : s.redoStack.getLast? <;>
        simp only [applyEvent, hlast] at h
      · exact Or.inl h
      · simp at h
    case resetClick => simp [applyEvent] at h
    case checkClick =>
      refine Or.inr ⟨rfl, ?_⟩
      by_contra hns
      rw [Bool.not_eq_true] at hns
      simp [applyEvent, hns] at h

/-- Witness for C1 at the easy-001 puzzle: loading over a fully solved
grid hides the notification, and a Check click on the solved grid is of
the only event shape that can show it. -/
theorem load_leaves_notification_invisible_witness :
    notificationVisible (step ctxEasy1 (PageEvent.load none) solvedGridState)
        = false
    ∧ (notificationVisible solvedGridState = true
        ∨ (PageEvent.checkClick = PageEvent.checkClick
            ∧ isSolved solvedGridState.playerGrid ctxEasy1.solution = true)) :=
  ⟨(load_leaves_notification_invisible ctxEasy1 solvedGridState).1 none,
   (load_leaves_notification_invisible ctxEasy1 solvedGridState).2
     PageEvent.checkClick (by decide)⟩

-- ==============================================
-- C2
-- ==============================================

/-- C2 counterexample: solving easy-001, restarting, and solving it again
leaves the solved counter at 1 — the persisted marker is keyed by puzzle
id and survives the restart, so the claimed second increment never
happens (the notification itself does re-fire). -/
theorem resolve_after_restart_does_not_increment :
    (run ctxEasy1 solveTrace freshState).stats.totalSolved = 1
    ∧ notificationVisible (run ctxEasy1 restartResolveTrace freshState) = true
    ∧ (run ctxEasy1 restartResolveTrace freshState).stats.totalSolved = 1 := by
  decide

/-- C2 (amended): from a session state where the puzzle's persistent
already-counted marker is unset and no solved message is showing, any
event trace increments the solved counter exactly once if it contains at
least one Check click made while the grid is solved, and not at all
otherwise. In particular no-op edits after the solve add nothing, and a
restart followed by a re-solve does not increment again (the marker,
keyed by puzzle id and independent of session flags, persists). -/
theorem solved_counter_counts_first_solve_only (ctx : PageCtx)
    (s : PageState) (t : List PageEvent)
    (hm : isPuzzleMarkedSolved s.markers ctx.difficulty ctx.puzzleId = false)
    (hc : s.checkMessage ≠ some CheckMessage.solved) :
    (run ctx t s).stats.totalSolved =
      s.stats.totalSolved + (if traceSolves ctx s t then 1 else 0) := by
  have hcons : consistent ctx s := fun h => absurd h hc
  rw [run_totalSolved ctx t s hcons, hm]
  simp

/-- Witness for C2 on the solve–restart–resolve trace. -/
theorem solved_counter_counts_first_solve_only_witness :
    (run ctxEasy1 restartResolveTrace freshState).stats.totalSolved =
      freshState.stats.totalSolved
        + (if traceSolves ctxEasy1 freshState restartResolveTrace then 1
           else 0) :=
  solved_counter_counts_first_solve_only ctxEasy1 freshState
    restartResolveTrace (by decide) (by decide)

-- ==============================================
-- C3
-- ==============================================

/-- An attempt record written on 2026-01-19. -/
def ceRecord : GameSessionData :=
  { grid := [], undoStack := [], redoStack := [], timerSeconds := 0,
    status := .in_progress, lastSavedDate := "2026-01-19" }

/-- UTC midnight of 2026-01-19 in epoch milliseconds. -/
def ceFileMs : Int := daysFromCivil 2026 1 19 * (dayMs : Int)

/-- One second past UTC midnight on 2026-01-19. -/
def nowCe : Int := ceFileMs + 1000

/-- A store holding only the current day's attempt. -/
def cleanupStoreCe : SessionStore := [("puzzle_easy_2026-01-19", ceRecord)]

/-- C3 counterexample: on a UTC host at 2026-01-19T00:00:01Z, the key
`puzzle_easy_2026-01-19` embeds the current day, yet `cleanup` with
threshold 0 removes it (`Math.ceil(1000 / dayMs) = 1 > 0`), so the sweep
does not spare the current day's entry for every threshold ≥ 0. -/
theorem cleanup_zero_threshold_removes_current_day :
    keyEmbeddedDateMs "puzzle_easy_2026-01-19" = some ceFileMs
    ∧ isCurrentDayEntry 0 nowCe ceFileMs
    ∧ cleanupOldGameData nowCe 0 cleanupStoreCe = [] := by
  decide

theorem storeGet_mem (k : String) (store : SessionStore)
    (v : GameSessionData) (h : storeGet k store = some v) : (k, v) ∈ store := by
  unfold storeGet at h
  cases hf : store.find? (fun e => e.1 == k) with
  | none => rw [hf] at h; cases h
  | some e =>
    rw [hf] at h
    have hmem := List.mem_of_find?_eq_some hf
    have hp := List.find?_some hf
    cases e with
    | mk k' v' =>
      simp at h hp
      rw [hp, h] at hmem
      exact hmem

/-- C3 (amended): the sweep removes an entry exactly when its key parses
(`puzzle_` prefix, three parts, valid date) and the ceiling-rounded number
of days between `now` and the embedded UTC midnight exceeds the threshold
— in either time direction. Consequently the current day's entry is only
guaranteed to survive for thresholds ≥ 2 (on hosts whose UTC offset is at
most a day); thresholds 0 and 1 can remove it. -/
theorem cleanup_removal_characterization (now : Int) (olderThanDays : Nat)
    (store : SessionStore) :
    (∀ e, e ∈ cleanupOldGameData now olderThanDays store ↔
        e ∈ store ∧ shouldDeleteKey now olderThanDays e.1 = false)
    ∧ (∀ tz fileMs key data,
        2 ≤ olderThanDays →
        tz.natAbs ≤ dayMs →
        isCurrentDayEntry tz now fileMs →
        keyEmbeddedDateMs key = some fileMs →
        (key, data) ∈ store →
        (key, data) ∈ cleanupOldGameData now olderThanDays store) := by
  have hmem : ∀ e, e ∈ cleanupOldGameData now olderThanDays store ↔
      e ∈ store ∧ shouldDeleteKey now olderThanDays e.1 = false := by
    intro e
    unfold cleanupOldGameData
    rw [List.mem_filter]
    simp
  refine ⟨hmem, ?_⟩
  intro tz fileMs key data h2 htz hcur hkey hmemstore
  refine (hmem (key, data)).mpr ⟨hmemstore, ?_⟩
  unfold shouldDeleteKey
  rw [hkey]
  have habs : (now - fileMs).natAbs < 2 * dayMs := by
    obtain ⟨h1, h2'⟩ := hcur
    unfold dayMs at *
    omega
  have hdiff : diffDaysOf now fileMs ≤ 2 := by
    unfold diffDaysOf
    unfold dayMs at *
    omega
  simp
  omega

/-- Witness for C3 at threshold 2: the current day's entry survives. -/
theorem cleanup_removal_characterization_witness :
    ("puzzle_easy_2026-01-19", ceRecord) ∈
      cleanupOldGameData nowCe 2 cleanupStoreCe :=
  (cleanup_removal_characterization nowCe 2 cleanupStoreCe).2 0 ceFileMs
    "puzzle_easy_2026-01-19" ceRecord (by decide) (by decide) (by decide)
    (by decide) (by decide)

-- ==============================================
-- C4
-- ==============================================

/-- A solved record saved on 2026-01-01. -/
def staleRecord : GameSessionData :=
  { grid := [], undoStack := [], redoStack := [], timerSeconds := 0,
    status := .solved, lastSavedDate := "2026-01-01" }

/-- A store holding only that record under its dated key. -/
def staleStore : SessionStore := [("puzzle_easy_2026-01-01", staleRecord)]

/-- C4 counterexample: querying date 2026-01-01 on 2026-01-02 for a record
whose `lastSavedDate` equals the query date returns absent — the source
compares `lastSavedDate` with the current day (`getTodayISO()`), not with
the query date, so the claimed "returns the record exactly when
`lastSavedDate = dateISO`" fails (the scan still retrieves the data). -/
theorem load_compares_to_today_not_query_date :
    staleRecord.lastSavedDate = "2026-01-01"
    ∧ loadGameSession staleStore "2026-01-02" .easy "2026-01-01" = none
    ∧ getAllStoredSessions staleStore =
        [{ key := "puzzle_easy_2026-01-01", difficulty := "easy",
           dateIso := "2026-01-01", data := staleRecord }] := by
  decide

/-- C4 (amended): the load returns the record stored under the
(difficulty, dateISO) key exactly when that record's `lastSavedDate`
equals the current day `today` (which coincides with the claim only in
the standard call pattern `dateISO = today`); in every case the stored
data stays in place and remains retrievable by the history/statistics
scan. -/
theorem load_returns_record_iff_saved_today (store : SessionStore)
    (today : String) (d : Difficulty) ( dateIso : String)
    (record : GameSessionData)
    (hget : storeGet (getStorageKey d dateIso) store = some record)
    (hkey : jsSplit ('_') (getStorageKey d dateIso) =
        ["puzzle", difficultyStr d, dateIso])
    (hpre : jsStartsWith (getStorageKey d dateIso) "puzzle_" = true) :
    loadGameSession store today d dateIso =
      (if record.lastSavedDate = today then some record else none)
    ∧ { key := getStorageKey d dateIso, difficulty := difficultyStr d,
        dateIso := dateIso, data := record } ∈ getAllStoredSessions store := by
  constructor
  · by_cases h : record.lastSavedDate = today <;>
      simp [loadGameSession, hget, isDataFromToday, h]
  · refine List.mem_filterMap.mpr
      ⟨(getStorageKey d dateIso, record), storeGet_mem _ _ _ hget, ?_⟩
    simp [hpre, hkey]

/-- Witness for C4: a record saved today is returned by the load and
listed by the scan. -/
def todayRecord : GameSessionData :=
  { grid := [], undoStack := [], redoStack := [], timerSeconds := 0,
    status := .solved, lastSavedDate := "2026-01-19" }

/-- A store holding only today's record. -/
def todayStore : SessionStore := [("puzzle_easy_2026-01-19", todayRecord)]

/-- Witness for C4 at (easy, 2026-01-19) with today = 2026-01-19. -/
theorem load_returns_record_iff_saved_today_witness :
    loadGameSession todayStore "2026-01-19" .easy "2026-01-19" =
      (if todayRecord.lastSavedDate = "2026-01-19" then some todayRecord
       else none)
    ∧ { key := getStorageKey .easy "2026-01-19", difficulty := "easy",
        dateIso := "2026-01-19", data := todayRecord } ∈
        getAllStoredSessions todayStore :=
  load_returns_record_iff_saved_today todayStore "2026-01-19" .easy
    "2026-01-19" todayRecord (by decide) (by decide) (by decide)

-- ==============================================
-- C5
-- ==============================================

/-- Decidable equality for selection results, used by concrete witnesses. -/
instance instDecEqExceptPuzzle {ε α : Type} [DecidableEq ε] [DecidableEq α] :
    DecidableEq (Except ε α) := fun x y =>
  match x, y with
  | .error a, .error b =>
    if h : a = b then isTrue (by rw [h])
    else isFalse (by intro hh; cases hh; exact h rfl)
  | .ok a, .ok b =>
    if h : a = b then isTrue (by rw [h])
    else isFalse (by intro hh; cases hh; exact h rfl)
  | .error _, .ok _ => isFalse (by intro hh; cases hh)
  | .ok _, .error _ => isFalse (by intro hh; cases hh)

theorem getD_mem {α : Type} (l : List α) (i : Nat) (d : α)
    (h : i < l.length) : l.getD i d ∈ l := by
  rw [List.getD_eq_getElem l d h]
  exact l.getElem_mem h

theorem mem_dedupFold (l acc : List String) (x : String) :
    (x ∈ l.foldl
        (fun acc y => if acc.contains y then acc else acc ++ [y]) acc) ↔
      (x ∈ acc ∨ x ∈ l) := by
  induction l generalizing acc with
  | nil => simp
  | cons c t ih =>
    by_cases hc : acc.contains c
    · rw [List.foldl_cons, if_pos hc, ih]
      have hcm : c ∈ acc := List.elem_iff.mp hc
      constructor
      · rintro (h | h)
        · exact Or.inl h
        · exact Or.inr (List.mem_cons_of_mem c h)
      · rintro (h | h)
        · exact Or.inl h
        · rcases List.mem_cons.mp h with h | h
          · exact Or.inl (h ▸ hcm)
          · exact Or.inr h
    · rw [List.foldl_cons, if_neg hc, ih]
      simp [List.mem_append, or_assoc]

theorem mem_dedup (l : List String) (x : String) : x ∈ dedup l ↔ x ∈ l := by
  unfold dedup
  rw [mem_dedupFold]
  simp

theorem getFeaturedPuzzle_mem (d : Difficulty) ( dateIso : String)
    (f : PuzzleEntry) (h : getFeaturedPuzzle d dateIso = .ok f) :
    f ∈ PUZZLES d := by
  unfold getFeaturedPuzzle at h
  by_cases h0 : (PUZZLES d).length = 0
  · rw [if_pos h0] at h; cases h
  · rw [if_neg h0] at h
    have hpos : 0 < (PUZZLES d).length := Nat.pos_of_ne_zero h0
    by_cases h1 : (PUZZLES d).length = 1
    · rw [if_pos h1] at h
      cases h
      exact getD_mem _ 0 _ hpos
    · rw [if_neg h1] at h
      cases h
      apply getD_mem
      split
      · exact Nat.mod_lt _ hpos
      · exact Nat.mod_lt _ hpos

theorem firstUnseenFrom_all_seen (pool : List PuzzleEntry)
    (seen : List String) (start : Nat)
    (hall : ∀ p ∈ pool, seen.contains p.id = true) :
    firstUnseenFrom pool seen start = none := by
  unfold firstUnseenFrom
  apply List.findSome?_eq_none_iff.mpr
  intro k hk
  rw [List.mem_range] at hk
  have hpos : 0 < pool.length := Nat.lt_of_le_of_lt (Nat.zero_le k) hk
  have hlt : (start + k + 1) % pool.length < pool.length :=
    Nat.mod_lt _ hpos
  have hc := hall _ (getD_mem pool ((start + k + 1) % pool.length)
    dummyEntry hlt)
  simp at hc ⊢
  exact hc

/-- C5 counterexample: with the whole easy pool already used and easy-001
active on 2026-01-18 (featured: easy-002), the New-puzzle handler resets
the used set to the featured puzzle and plays it — not `pool[0]`
(easy-001), as the claim states. -/
theorem wraparound_resets_to_featured_not_pool_head :
    handleNewPuzzle .easy "2026-01-18"
        ["easy-001", "easy-002", "easy-003", "easy-004", "easy-005",
         "easy-006", "easy-007"] "easy-001" =
      some (["easy-002"], "easy-002")
    ∧ ((PUZZLES .easy).getD 0 dummyEntry).id = "easy-001" := by
  constructor
  · set_option maxRecDepth 100000 in decide
  · decide

/-- C5 (amended): when every entry of the pool is already in the used-id
set, the New-puzzle handler resets the used-id set to contain only the
newly chosen entry and returns it — but that entry is the day's featured
puzzle (the anchor the handler passes to the selection helper), which
only coincides with `pool[0]` on dates whose featured index is 0. -/
theorem wraparound_resets_to_featured (d : Difficulty) ( todayIso : String)
    (storedSeen : List String) (puzzleId : String) (featured : PuzzleEntry)
    (hpool : PUZZLES d ≠ [])
    (hall : ∀ p ∈ PUZZLES d, storedSeen.contains p.id = true)
    (hfeat : getFeaturedPuzzle d todayIso = .ok featured) :
    handleNewPuzzle d todayIso storedSeen puzzleId =
      some ([featured.id], featured.id) := by
  have hlen : (PUZZLES d).length ≠ 0 := by
    simpa [List.length_eq_zero] using hpool
  have hallseen : ∀ p ∈ PUZZLES d,
      (dedup (storedSeen ++ [puzzleId])).contains p.id = true := by
    intro p hp
    apply List.elem_iff.mpr
    rw [mem_dedup]
    exact List.mem_append_left _ (List.elem_iff.mp (hall p hp))
  have hfeatmem := getFeaturedPuzzle_mem d todayIso featured hfeat
  have hfeatseen := hallseen featured hfeatmem
  have hfirst : getNextPuzzleNoRepeat d todayIso
      (dedup (storedSeen ++ [puzzleId])) (some featured) = .ok featured := by
    unfold getNextPuzzleNoRepeat
    rw [if_neg hlen]
    simp only [hfeatseen, if_true, firstUnseenFrom_all_seen _ _ _ hallseen]
  have hsecond : getNextPuzzleNoRepeat d todayIso [] (some featured) =
      .ok featured := by
    unfold getNextPuzzleNoRepeat
    rw [if_neg hlen]
    simp [List.contains]
  unfold handleNewPuzzle
  simp only [if_neg hlen, hfeat, hfirst, hfeatseen, if_true, hsecond]

/-- Witness for C5 at (easy, 2026-01-17), whose featured puzzle is
easy-001 = pool[0]. -/
theorem wraparound_resets_to_featured_witness :
    handleNewPuzzle .easy "2026-01-17"
        ["easy-001", "easy-002", "easy-003", "easy-004", "easy-005",
         "easy-006", "easy-007"] "easy-003" =
      some ([((PUZZLES .easy).getD 0 dummyEntry).id],
        ((PUZZLES .easy).getD 0 dummyEntry).id) :=
  wraparound_resets_to_featured .easy "2026-01-17"
    ["easy-001", "easy-002", "easy-003", "easy-004", "easy-005",
     "easy-006", "easy-007"] "easy-003"
    ((PUZZLES .easy).getD 0 dummyEntry)
    (by decide) (by decide)
    (by set_option maxRecDepth 100000 in decide)

-- ==============================================
-- C6
-- ==============================================

/-- Today's naive featured index, in the claim's words:
`hash("{difficulty}:{dateISO}") mod N`. -/
def naiveIndex (d : Difficulty) ( dateIso : String) : Nat :=
  hashString (difficultyStr d ++ ":" ++ dateIso) % (PUZZLES d).length

/-- The featured index the claim prescribes: today's naive index, advanced
by one modulo N exactly when it collides with yesterday's naive index. -/
def specFeaturedIndex (d : Difficulty) ( dateIso : String) : Nat :=
  let today := naiveIndex d dateIso
  let yesterday := naiveIndex d (getPreviousDateIso dateIso)
  if today = yesterday then (today + 1) % (PUZZLES d).length else today

/-- Valid calendar dates with four-digit years — the domain on which the
embedded date arithmetic provably coincides with the JS `Date` rollover. -/
abbrev validDate (y m d : Nat) : Prop :=
  1000 ≤ y ∧ y ≤ 9999 ∧ 1 ≤ m ∧ m ≤ 12 ∧ 1 ≤ d ∧ d ≤ daysInMonth y m

/-- Adjacent entries of every concrete pool carry different ids. -/
theorem pool_adjacent_ids_ne (d : Difficulty) :
    ∀ i, i < (PUZZLES d).length →
      ((PUZZLES d).getD ((i + 1) % (PUZZLES d).length) dummyEntry).id ≠
        ((PUZZLES d).getD i dummyEntry).id := by
  cases d <;> decide

/-- C6: for every difficulty whose pool has more than one entry and every
valid date, the featured puzzle is the pool entry at the index given by
the hash-of-today formula with the advance-on-collision adjustment; and
whenever today's and yesterday's naive indices collide, the returned
entry differs from the entry at the naive index. -/
theorem featured_puzzle_hash_index (d : Difficulty) (y m dd : Nat)
    (_hv : validDate y m dd) (hlen : 1 < (PUZZLES d).length) :
    getFeaturedPuzzle d (formatDateIso y m dd) =
      .ok ((PUZZLES d).getD (specFeaturedIndex d (formatDateIso y m dd))
        dummyEntry)
    ∧ (naiveIndex d (formatDateIso y m dd) =
          naiveIndex d (getPreviousDateIso (formatDateIso y m dd)) →
        getFeaturedPuzzle d (formatDateIso y m dd) ≠
          .ok ((PUZZLES d).getD (naiveIndex d (formatDateIso y m dd))
            dummyEntry)) := by
  have h0 : ¬(PUZZLES d).length = 0 := by omega
  have h1 : ¬(PUZZLES d).length = 1 := by omega
  have hmain : getFeaturedPuzzle d (formatDateIso y m dd) =
      .ok ((PUZZLES d).getD (specFeaturedIndex d (formatDateIso y m dd))
        dummyEntry) := by
    unfold getFeaturedPuzzle specFeaturedIndex naiveIndex
    rw [if_neg h0, if_neg h1]
  refine ⟨hmain, ?_⟩
  intro hcol heq
  rw [hmain] at heq
  have hideq := congrArg PuzzleEntry.id (Except.ok.inj heq)
  have hspec : specFeaturedIndex d (formatDateIso y m dd) =
      (naiveIndex d (formatDateIso y m dd) + 1) % (PUZZLES d).length := by
    unfold specFeaturedIndex
    rw [if_pos hcol]
  rw [hspec] at hideq
  exact pool_adjacent_ids_ne d (naiveIndex d (formatDateIso y m dd))
    (Nat.mod_lt _ (by omega)) hideq

/-- Witness for C6 at (easy, 2026-01-19). -/
theorem featured_puzzle_hash_index_witness :
    getFeaturedPuzzle .easy (formatDateIso 2026 1 19) =
      .ok ((PUZZLES .easy).getD
        (specFeaturedIndex .easy (formatDateIso 2026 1 19)) dummyEntry)
    ∧ (naiveIndex .easy (formatDateIso 2026 1 19) =
          naiveIndex .easy (getPreviousDateIso (formatDateIso 2026 1 19)) →
        getFeaturedPuzzle .easy (formatDateIso 2026 1 19) ≠
          .ok ((PUZZLES .easy).getD
            (naiveIndex .easy (formatDateIso 2026 1 19)) dummyEntry)) :=
  featured_puzzle_hash_index .easy 2026 1 19 (by decide) (by decide)

-- ==============================================
-- C7
-- ==============================================

/-- Every concrete pool's ids are pairwise distinct. -/
theorem pool_ids_nodup (d : Difficulty) :
    ((PUZZLES d).map PuzzleEntry.id).Nodup := by
  cases d <;> decide

theorem findIdx?_ids_of_getD (pool : List PuzzleEntry) :
    ∀ (i : Nat) (sf : PuzzleEntry), (pool.map PuzzleEntry.id).Nodup →
      i < pool.length → pool.getD i dummyEntry = sf →
      pool.findIdx? (fun p => p.id == sf.id) = some i := by
  induction pool with
  | nil => intro i sf _ hi _; cases hi
  | cons p t ih =>
    intro i sf hnd hi hget
    rw [List.map_cons, List.nodup_cons] at hnd
    cases i with
    | zero =>
      have hp : p = sf := by simpa [List.getD] using hget
      simp [List.findIdx?_cons, hp]
    | succ j =>
      have hj : j < t.length := by simpa using hi
      have hgt : t.getD j dummyEntry = sf := by simpa [List.getD] using hget
      have hsfmem : sf ∈ t := hgt ▸ getD_mem t j dummyEntry hj
      have hne : (p.id == sf.id) = false := by
        rw [beq_eq_false_iff_ne]
        intro hc
        exact hnd.1 (hc ▸ List.mem_map_of_mem PuzzleEntry.id hsfmem)
      simp [List.findIdx?_cons, hne, ih j sf hnd.2 hj hgt]

/-- The selection helpers never fail on a non-empty pool (featured form).
Shared by C7 and C8. -/
theorem getFeaturedPuzzle_ok (d : Difficulty) ( dateIso : String)
    (h : ¬(PUZZLES d).length = 0) :
    ∃ f, getFeaturedPuzzle d dateIso = .ok f := by
  unfold getFeaturedPuzzle
  rw [if_neg h]
  split
  · exact ⟨_, rfl⟩
  · exact ⟨_, rfl⟩

/-- Unfolding of `getNextPuzzleNoRepeat` with a supplied anchor over a
non-empty pool. -/
theorem getNextPuzzleNoRepeat_some (d : Difficulty) ( dateIso : String)
    (seen : List String) (sf : PuzzleEntry) (h : ¬(PUZZLES d).length = 0) :
    getNextPuzzleNoRepeat d dateIso seen (some sf) =
      (if seen.contains sf.id then
        (match firstUnseenFrom (PUZZLES d) seen
            (if getPuzzleIndex d sf.id ≥ 0 then (getPuzzleIndex d sf.id).toNat
             else 0) with
          | some c => .ok c
          | none => .ok sf)
      else .ok sf) := by
  unfold getNextPuzzleNoRepeat
  rw [if_neg h]

/-- Unfolding of `getNextPuzzleNoRepeat` without an anchor over a
non-empty pool. -/
theorem getNextPuzzleNoRepeat_none (d : Difficulty) ( dateIso : String)
    (seen : List String) (h : ¬(PUZZLES d).length = 0) :
    getNextPuzzleNoRepeat d dateIso seen none =
      (match getFeaturedPuzzle d dateIso with
        | .error e => .error e
        | .ok featured =>
          match firstUnseenFrom (PUZZLES d) seen
              (if getPuzzleIndex d featured.id ≥ 0 then
                (getPuzzleIndex d featured.id).toNat
               else 0) with
          | some c => .ok c
          | none => .ok ((PUZZLES d).getD 0 dummyEntry)) := by
  unfold getNextPuzzleNoRepeat
  rw [if_neg h]

/-- The no-anchor unfolding, specialised to a successful featured lookup. -/
theorem getNextPuzzleNoRepeat_none_ok (d : Difficulty) ( dateIso : String)
    (seen : List String) (f : PuzzleEntry) (h : ¬(PUZZLES d).length = 0)
    (hf : getFeaturedPuzzle d dateIso = .ok f) :
    getNextPuzzleNoRepeat d dateIso seen none =
      (match firstUnseenFrom (PUZZLES d) seen
          (if getPuzzleIndex d f.id ≥ 0 then (getPuzzleIndex d f.id).toNat
           else 0) with
        | some c => .ok c
        | none => .ok ((PUZZLES d).getD 0 dummyEntry)) := by
  rw [getNextPuzzleNoRepeat_none d dateIso seen h, hf]

/-- C7: the next-unseen selection (a) returns an unseen anchor unchanged;
(b) for a seen anchor sitting at pool index `i`, returns the first unseen
entry of the forward-wrapping scan from `i`, falling back to the anchor;
(c) with no anchor, scans forward from the featured puzzle's index and
falls back to `pool[0]`; and (d) when every pool id is seen, returns the
anchor if supplied and `pool[0]` otherwise. -/
theorem next_unseen_puzzle_spec (d : Difficulty) ( dateIso : String)
    (seen : List String) (hpool : ¬(PUZZLES d).length = 0) :
    (∀ sf, seen.contains sf.id = false →
        getNextPuzzleNoRepeat d dateIso seen (some sf) = .ok sf)
    ∧ (∀ sf i, i < (PUZZLES d).length →
        (PUZZLES d).getD i dummyEntry = sf →
        seen.contains sf.id = true →
        getNextPuzzleNoRepeat d dateIso seen (some sf) =
          .ok ((firstUnseenFrom (PUZZLES d) seen i).getD sf))
    ∧ (∀ f j, getFeaturedPuzzle d dateIso = .ok f →
        j < (PUZZLES d).length → (PUZZLES d).getD j dummyEntry = f →
        getNextPuzzleNoRepeat d dateIso seen none =
          .ok ((firstUnseenFrom (PUZZLES d) seen j).getD
            ((PUZZLES d).getD 0 dummyEntry)))
    ∧ ((∀ p ∈ PUZZLES d, seen.contains p.id = true) →
        ∀ anchor, getNextPuzzleNoRepeat d dateIso seen anchor =
          .ok (anchor.getD ((PUZZLES d).getD 0 dummyEntry))) := by
  have hidx : ∀ (sf : PuzzleEntry) i, i < (PUZZLES d).length →
      (PUZZLES d).getD i dummyEntry = sf →
      getPuzzleIndex d sf.id = (i : Int) := by
    intro sf i hi hget
    unfold getPuzzleIndex
    rw [findIdx?_ids_of_getD (PUZZLES d) i sf (pool_ids_nodup d) hi hget]
  refine ⟨?_, ?_, ?_, ?_⟩
  · intro sf hun
    rw [getNextPuzzleNoRepeat_some d dateIso seen sf hpool, hun]
    simp
  · intro sf i hi hget hseen
    rw [getNextPuzzleNoRepeat_some d dateIso seen sf hpool, hseen,
      hidx sf i hi hget]
    simp only [ge_iff_le, Int.natCast_nonneg, if_true, Int.toNat_natCast]
    cases hscan : firstUnseenFrom (PUZZLES d) seen i <;> simp [hscan]
  · intro f j hf hj hget
    rw [getNextPuzzleNoRepeat_none_ok d dateIso seen f hpool hf,
      hidx f j hj hget]
    simp only [ge_iff_le, Int.natCast_nonneg, if_true, Int.toNat_natCast]
    cases hscan : firstUnseenFrom (PUZZLES d) seen j <;> simp [hscan]
  · intro hall anchor
    cases anchor with
    | some sf =>
      by_cases hc : seen.contains sf.id
      · rw [getNextPuzzleNoRepeat_some d dateIso seen sf hpool, hc,
          firstUnseenFrom_all_seen _ _ _ hall]
        simp
      · rw [Bool.not_eq_true] at hc
        rw [getNextPuzzleNoRepeat_some d dateIso seen sf hpool, hc]
        simp
    | none =>
      obtain ⟨f, hf⟩ := getFeaturedPuzzle_ok d dateIso hpool
      rw [getNextPuzzleNoRepeat_none_ok d dateIso seen f hpool hf,
        firstUnseenFrom_all_seen _ _ _ hall]
      rfl

/-- Witness for C7: an unseen anchor is returned unchanged, and with the
whole easy pool seen and no anchor, `pool[0]` is returned. -/
theorem next_unseen_puzzle_spec_witness :
    getNextPuzzleNoRepeat .easy "2026-01-19" ["easy-001"]
        (some ((PUZZLES .easy).getD 2 dummyEntry)) =
      .ok ((PUZZLES .easy).getD 2 dummyEntry)
    ∧ getNextPuzzleNoRepeat .easy "2026-01-19"
        ["easy-001", "easy-002", "easy-003", "easy-004", "easy-005",
         "easy-006", "easy-007"] none =
      .ok ((Option.none).getD ((PUZZLES .easy).getD 0 dummyEntry)) :=
  ⟨(next_unseen_puzzle_spec .easy "2026-01-19" ["easy-001"] (by decide)).1
      ((PUZZLES .easy).getD 2 dummyEntry) (by decide),
   (next_unseen_puzzle_spec .easy "2026-01-19"
      ["easy-001", "easy-002", "easy-003", "easy-004", "easy-005",
       "easy-006", "easy-007"] (by decide)).2.2.2 (by decide) none⟩

-- ==============================================
-- C8
-- ==============================================

/-- C8: for an empty pool, both puzzle-selection entry points fail with
the no-puzzles error; for a non-empty pool, neither fails. -/
theorem empty_pool_fails_nonempty_succeeds (d : Difficulty)
    ( dateIso : String) (seen : List String) (anchor : Option PuzzleEntry) :
    ((PUZZLES d).isEmpty = true →
      getFeaturedPuzzle d dateIso =
        .error ("No puzzles available for difficulty: " ++ difficultyStr d)
      ∧ getNextPuzzleNoRepeat d dateIso seen anchor =
        .error ("No puzzles available for difficulty: " ++ difficultyStr d))
    ∧ ((PUZZLES d).isEmpty = false →
      (∃ p, getFeaturedPuzzle d dateIso = .ok p)
      ∧ (∃ p, getNextPuzzleNoRepeat d dateIso seen anchor = .ok p)) := by
  constructor
  · intro hempty
    have hnil : PUZZLES d = [] := by
      simpa [List.isEmpty_iff] using hempty
    have hlen : (PUZZLES d).length = 0 := by simp [hnil]
    constructor
    · unfold getFeaturedPuzzle
      rw [if_pos hlen]
    · unfold getNextPuzzleNoRepeat
      rw [if_pos hlen]
  · intro hne
    have hlen : ¬(PUZZLES d).length = 0 := by
      simp [List.isEmpty_iff] at hne
      simpa [List.length_eq_zero] using hne
    refine ⟨getFeaturedPuzzle_ok d dateIso hlen, ?_⟩
    cases anchor with
    | some sf =>
      rw [getNextPuzzleNoRepeat_some d dateIso seen sf hlen]
      by_cases hc : seen.contains sf.id
      · rw [hc]
        cases hscan : firstUnseenFrom (PUZZLES d) seen
            (if getPuzzleIndex d sf.id ≥ 0 then (getPuzzleIndex d sf.id).toNat
             else 0) <;> simp [hscan]
      · rw [Bool.not_eq_true] at hc
        rw [hc]
        exact ⟨sf, rfl⟩
    | none =>
      obtain ⟨f, hf⟩ := getFeaturedPuzzle_ok d dateIso hlen
      rw [getNextPuzzleNoRepeat_none_ok d dateIso seen f hlen hf]
      cases hscan : firstUnseenFrom (PUZZLES d) seen
          (if getPuzzleIndex d f.id ≥ 0 then (getPuzzleIndex d f.id).toNat
           else 0) <;> simp [hscan]

/-- Witness for C8: the empty hard pool fails both entry points; the easy
pool fails neither. -/
theorem empty_pool_fails_nonempty_succeeds_witness :
    (getFeaturedPuzzle .hard "2026-01-19" =
        .error "No puzzles available for difficulty: hard"
      ∧ getNextPuzzleNoRepeat .hard "2026-01-19" [] none =
        .error "No puzzles available for difficulty: hard")
    ∧ ((∃ p, getFeaturedPuzzle .easy "2026-01-19" = .ok p)
      ∧ (∃ p, getNextPuzzleNoRepeat .easy "2026-01-19" [] none = .ok p)) :=
  ⟨(empty_pool_fails_nonempty_succeeds .hard "2026-01-19" [] none).1
      (by decide),
   (empty_pool_fails_nonempty_succeeds .easy "2026-01-19" [] none).2
      (by decide)⟩

-- ==============================================
-- C9
-- ==============================================

/-- Writing value `v` into cell (row, col) of a grid (the board's
single-cell edit, out-of-range writes being no-ops). -/
def setCell (g : CellGrid) (row col : Nat) (v : Cell) : CellGrid :=
  g.set row ((g.getD row []).set col v)

theorem getD_set_self {α : Type} (l : List α) (i : Nat) (a d : α)
    (h : i < l.length) : (l.set i a).getD i d = a := by
  rw [List.getD_eq_getElem _ _ (by simpa using h)]
  simp [List.getElem_set]

theorem getD_set_ne {α : Type} (l : List α) (i j : Nat) (a d : α)
    (h : i ≠ j) : (l.set i a).getD j d = l.getD j d := by
  simp [List.getD, List.getElem?_set, h]

/-- The solve evaluator only inspects whether each player cell equals 1,
so it is invariant under any pointwise change that preserves filledness. -/
theorem isSolved_of_filled_iff (p1 p2 solution : CellGrid)
    (h : ∀ r c, cellAt p1 r c = 1 ↔ cellAt p2 r c = 1) :
    isSolved p1 solution = true → isSolved p2 solution = true := by
  unfold isSolved
  simp only [List.all_eq_true, List.mem_range]
  intro hall r hr c hc
  have hterm := hall r hr c hc
  by_cases hs : cellAt solution r c = 1
  · rw [if_pos hs] at hterm ⊢
    rw [beq_iff_eq] at hterm ⊢
    exact (h r c).mp hterm
  · rw [if_neg hs] at hterm ⊢
    rw [bne_iff_ne] at hterm ⊢
    intro hne
    exact hterm ((h r c).mpr hne)

theorem isSolved_congr (p1 p2 solution : CellGrid)
    (h : ∀ r c, cellAt p1 r c = 1 ↔ cellAt p2 r c = 1) :
    isSolved p1 solution = isSolved p2 solution := by
  rw [Bool.eq_iff_iff]
  exact ⟨isSolved_of_filled_iff p1 p2 solution h,
    isSolved_of_filled_iff p2 p1 solution (fun r c => (h r c).symm)⟩

theorem cellAt_setCell_one_iff (g : CellGrid) (row col : Nat) (v : Cell)
    (hv : v ≠ 1) (hold : cellAt g row col ≠ 1) :
    ∀ r c, cellAt (setCell g row col v) r c = 1 ↔ cellAt g r c = 1 := by
  intro r c
  unfold setCell cellAt
  unfold cellAt at hold
  by_cases hr : row = r
  · subst hr
    by_cases hrow : row < g.length
    · rw [getD_set_self _ _ _ _ hrow]
      by_cases hc : col = c
      · subst hc
        by_cases hcol : col < (g.getD row []).length
        · rw [getD_set_self _ _ _ _ hcol]
          exact iff_of_false hv hold
        · rw [List.set_eq_of_length_le (Nat.le_of_not_lt hcol)]
      · rw [getD_set_ne _ _ _ _ _ hc]
    · rw [List.set_eq_of_length_le (Nat.le_of_not_lt hrow)]
  · rw [getD_set_ne _ _ _ _ _ hr]

/-- C9: the solve evaluator's verdict is unchanged when any player cell is
toggled between empty (0) and marked (2): writing 0 or 2 over a cell that
held 0 or 2 never changes whether the grid counts as solved, for every
player grid and solution grid. -/
theorem isSolved_ignores_marks (player solution : CellGrid)
    (row col : Nat) (v : Cell)
    (hv : v = 0 ∨ v = 2)
    (hold : cellAt player row col = 0 ∨ cellAt player row col = 2) :
    isSolved (setCell player row col v) solution =
      isSolved player solution := by
  have hv' : v ≠ 1 := by rcases hv with h | h <;> simp [h]
  have hold' : cellAt player row col ≠ 1 := by
    rcases hold with h | h <;> simp [h]
  exact isSolved_congr _ _ _
    (cellAt_setCell_one_iff player row col v hv' hold')

/-- Witness for C9: marking X on an empty cell of the completed hourglass
grid leaves it solved. -/
theorem isSolved_ignores_marks_witness :
    isSolved (setCell SAMPLE_5X5_SOLUTION 0 1 2) SAMPLE_5X5_SOLUTION =
      isSolved SAMPLE_5X5_SOLUTION SAMPLE_5X5_SOLUTION :=
  isSolved_ignores_marks SAMPLE_5X5_SOLUTION SAMPLE_5X5_SOLUTION 0 1 2
    (by decide) (by decide)

-- ==============================================
-- C10
-- ==============================================

/-- The claim's specification of one line's clues: the lengths of the
maximal runs of consecutive filled (1) cells, in left-to-right order. -/
def runsSpec (line : List Cell) : List Nat :=
  ((line.splitOnP (fun c => c != 1)).filter (fun g => !g.isEmpty)).map
    List.length

/-- The claim's specification of the clue list: the run lengths, or the
singleton `[0]` for a line with no filled cells. -/
def cluesSpec (line : List Cell) : List Nat :=
  match runsSpec line with
  | [] => [0]
  | rs => rs

/-- Recursive form of the clue loop: `cnt` is the length of the run in
progress. -/
def runsAux (cnt : Nat) : List Cell → List Nat
  | [] => if cnt > 0 then [cnt] else []
  | c :: t =>
    if c = 1 then runsAux (cnt + 1) t
    else if cnt > 0 then cnt :: runsAux 0 t else runsAux 0 t

/-- The body of the clue loop of `computeLineClues`, named so that the
fold can be reasoned about. -/
def clueStep (acc : List Nat × Nat) (cell : Cell) : List Nat × Nat :=
  if cell = 1 then (acc.1, acc.2 + 1)
  else if acc.2 > 0 then (acc.1 ++ [acc.2], 0)
  else acc

theorem computeLineClues_eq_fold_clueStep (line : List Cell) :
    computeLineClues line =
      (if (if (line.foldl clueStep ([], 0)).2 > 0
           then (line.foldl clueStep ([], 0)).1 ++
             [(line.foldl clueStep ([], 0)).2]
           else (line.foldl clueStep ([], 0)).1).length > 0
       then (if (line.foldl clueStep ([], 0)).2 > 0
             then (line.foldl clueStep ([], 0)).1 ++
               [(line.foldl clueStep ([], 0)).2]
             else (line.foldl clueStep ([], 0)).1)
       else [0]) := rfl

theorem clue_fold (line : List Cell) : ∀ (acc : List Nat) (cnt : Nat),
    (if (line.foldl clueStep (acc, cnt)).2 > 0
     then (line.foldl clueStep (acc, cnt)).1 ++
       [(line.foldl clueStep (acc, cnt)).2]
     else (line.foldl clueStep (acc, cnt)).1) =
      acc ++ runsAux cnt line := by
  induction line with
  | nil =>
    intro acc cnt
    by_cases h : cnt > 0 <;> simp [runsAux, h]
  | cons c t ih =>
    intro acc cnt
    rw [List.foldl_cons]
    by_cases hc : c = 1
    · have harg : clueStep (acc, cnt) c = (acc, cnt + 1) := by
        simp [clueStep, hc]
      rw [harg, ih acc (cnt + 1),
        show runsAux cnt (c :: t) = runsAux (cnt + 1) t from by
          simp [runsAux, hc]]
    · by_cases hcnt : cnt > 0
      · have harg : clueStep (acc, cnt) c = (acc ++ [cnt], 0) := by
          simp [clueStep, hc, hcnt]
        rw [harg, ih (acc ++ [cnt]) 0,
          show runsAux cnt (c :: t) = cnt :: runsAux 0 t from by
            simp [runsAux, hc, hcnt]]
        simp
      · have hz : cnt = 0 := by omega
        subst hz
        have harg : clueStep (acc, 0) c = (acc, 0) := by
          simp [clueStep, hc]
        rw [harg, ih acc 0,
          show runsAux 0 (c :: t) = runsAux 0 t from by
            simp [runsAux, hc]]

theorem computeLineClues_eq_runsAux (line : List Cell) :
    computeLineClues line =
      (if runsAux 0 line = [] then [0] else runsAux 0 line) := by
  rw [computeLineClues_eq_fold_clueStep]
  have h := clue_fold line [] 0
  rw [List.nil_append] at h
  rw [h]
  cases runsAux 0 line <;> simp

theorem chunks_replicate (k : Nat) :
    (List.replicate k (1 : Cell)).splitOnP (fun c => c != 1) =
      [List.replicate k 1] := by
  apply List.splitOnP_eq_single
  intro x hx
  rw [List.eq_of_mem_replicate hx]
  simp

theorem chunks_replicate_append (k : Nat) (c : Cell) (t : List Cell)
    (hc : c ≠ 1) :
    (List.replicate k (1 : Cell) ++ c :: t).splitOnP (fun c => c != 1) =
      List.replicate k 1 :: t.splitOnP (fun c => c != 1) := by
  apply List.splitOnP_first
  · intro x hx
    rw [List.eq_of_mem_replicate hx]
    simp
  · simp [hc]

theorem runsAux_eq_runsSpec (t : List Cell) : ∀ cnt,
    runsAux cnt t = runsSpec (List.replicate cnt 1 ++ t) := by
  induction t with
  | nil =>
    intro cnt
    unfold runsSpec
    rw [List.append_nil, chunks_replicate cnt]
    by_cases h : cnt > 0
    · have hne : ¬(List.replicate cnt (1 : Cell)).isEmpty = true := by
        simp [List.isEmpty_iff, List.replicate_eq_nil_iff]
        omega
      simp [runsAux, h, List.filter, hne]
    · have hz : cnt = 0 := by omega
      subst hz
      simp [runsAux]
  | cons c t ih =>
    intro cnt
    by_cases hc : c = 1
    · subst hc
      have hstep : runsAux cnt (1 :: t) = runsAux (cnt + 1) t := by
        simp [runsAux]
      rw [hstep, ih (cnt + 1), List.replicate_succ']
      congr 1
      simp
    · have hstep : runsAux cnt (c :: t) =
          (if cnt > 0 then cnt :: runsAux 0 t else runsAux 0 t) := by
        simp [runsAux, hc]
      rw [hstep]
      have hihz := ih 0
      simp only [List.replicate, List.nil_append] at hihz
      unfold runsSpec
      rw [chunks_replicate_append cnt c t hc]
      by_cases h : cnt > 0
      · have hne : ¬(List.replicate cnt (1 : Cell)).isEmpty = true := by
          simp [List.isEmpty_iff, List.replicate_eq_nil_iff]
          omega
        rw [if_pos h]
        rw [hihz]
        unfold runsSpec
        simp [List.filter, hne]
      · have hz : cnt = 0 := by omega
        subst hz
        rw [if_neg h, hihz]
        unfold runsSpec
        simp [List.filter]

theorem computeLineClues_eq_cluesSpec (line : List Cell) :
    computeLineClues line = cluesSpec line := by
  rw [computeLineClues_eq_runsAux]
  have h := runsAux_eq_runsSpec line 0
  simp only [List.replicate, List.nil_append] at h
  rw [h]
  unfold cluesSpec
  cases runsSpec line <;> simp

theorem runsAux_sum (t : List Cell) : ∀ cnt,
    (runsAux cnt t).sum = cnt + t.count 1 := by
  induction t with
  | nil =>
    intro cnt
    by_cases h : cnt > 0
    · simp [runsAux, h]
    · simp [runsAux, h]
      omega
  | cons c t ih =>
    intro cnt
    by_cases hc : c = 1
    · subst hc
      have hstep : runsAux cnt (1 :: t) = runsAux (cnt + 1) t := by
        simp [runsAux]
      rw [hstep, ih (cnt + 1), List.count_cons]
      simp
      omega
    · have hstep : runsAux cnt (c :: t) =
          (if cnt > 0 then cnt :: runsAux 0 t else runsAux 0 t) := by
        simp [runsAux, hc]
      rw [hstep, List.count_cons]
      by_cases h : cnt > 0
      · rw [if_pos h]
        simp [ih 0, hc]
      · have hz : cnt = 0 := by omega
        subst hz
        rw [if_neg h]
        simp [ih 0, hc]

/-- C10: the clue derivation returns, for each row, exactly the lengths of
the maximal runs of consecutive filled cells in left-to-right order
(`[0]` for a row with no filled cells), and likewise for each column read
top-to-bottom; and every line's clues sum to its number of filled cells. -/
theorem clue_derivation_is_run_lengths (solution : CellGrid) :
    (computeCluesFromSolution solution).1 = solution.map cluesSpec
    ∧ (computeCluesFromSolution solution).2 =
        (List.range solution.length).map
          (fun col => cluesSpec (columnOf solution col))
    ∧ (∀ line : List Cell, (computeLineClues line).sum = line.count 1) := by
  have hsum : ∀ line : List Cell,
      (computeLineClues line).sum = line.count 1 := by
    intro line
    rw [computeLineClues_eq_runsAux]
    have h := runsAux_sum line 0
    cases hr : runsAux 0 line with
    | nil =>
      rw [hr] at h
      simp at h ⊢
      omega
    | cons a l =>
      rw [hr] at h
      simpa [hr] using h
  refine ⟨?_, ?_, hsum⟩
  · unfold computeCluesFromSolution
    simp only []
    exact List.map_congr_left (fun line _ => computeLineClues_eq_cluesSpec line)
  · unfold computeCluesFromSolution
    simp only []
    exact List.map_congr_left
      (fun col _ => computeLineClues_eq_cluesSpec (columnOf solution col))

end Nonogram
